import Mathlib

/-
Shallow embedding of `sync_jira_actions/sync_issue.py` (espressif/sync-jira-actions).

The GitHub side and the JIRA side are modelled explicitly:
  * Python strings are Lean `String`s (lists of characters); regular-expression
    operations from the source are implemented character by character.
  * The JIRA server is a `JiraState` value; every jira-client call of the source
    becomes a pure state transformation.
  * Python exceptions are an `Except PyErr` result; an uncaught exception is
    `.error e`.
  * The external `markdown2confluence` subprocess is a parameter
    `convert : String → Option String` (`none` models a `CalledProcessError`).
Machine integers do not occur (Python ints are unbounded); numbers are `Nat`.
-/

/-- Python exception classes that the translated code can raise or catch. -/
inductive PyErr where
  /-- `AttributeError`: attribute access on an object lacking it (for example `None.update(...)`). -/
  | attributeError : PyErr
  /-- `jira.JIRAError`: raised by jira-client calls such as `jira.issue` / `jira.project`. -/
  | jiraError : PyErr
  /-- `KeyError`: missing dictionary key, e.g. `event['label']` on an event without one. -/
  | keyError : PyErr
deriving DecidableEq, Repr

/-- ASCII lower-casing, as `str.lower()` acts on ASCII characters (the
reserved label markers `status:` / `resolution:` are ASCII). -/
def pyLowerChar (c : Char) : Char :=
  if 'A' ≤ c ∧ c ≤ 'Z' then Char.ofNat (c.toNat + 32) else c

/-- Python `str.lower()` (ASCII fragment). -/
def pyLower (s : String) : String := ⟨s.data.map pyLowerChar⟩

/-- Python `str.startswith(p)`. -/
def pyStartsWith (s p : String) : Bool := p.data.isPrefixOf s.data

/-- Python `needle in hay` on strings (substring containment). -/
def subStr (needle : List Char) : List Char → Bool
  | [] => needle.isEmpty
  | c :: t => needle.isPrefixOf (c :: t) || subStr needle t

/-- A character of the regex class `\w` (ASCII fragment: letters, digits, underscore). -/
def isWordChar (c : Char) : Bool := c.isAlphanum || c = '_'

/-- A character of the regex class `\s` (ASCII fragment). -/
def pyIsSpace (c : Char) : Bool :=
  c = ' ' || c = '\t' || c = '\n' || c = Char.ofNat 13 || c = Char.ofNat 11 || c = Char.ofNat 12

/-- After `[\w]+-` and at least one digit: consume further digits, then `)`.
Returns the remainder after the closing parenthesis. -/
def slugDigits : List Char → Option (List Char)
  | [] => none
  | c :: rest => if c = ')' then some rest else if c.isDigit then slugDigits rest else none

/-- After ` (` and at least one `\w` character: consume further `\w`
characters, then `-`, then one or more digits and `)`. -/
def slugWord : List Char → Option (List Char)
  | [] => none
  | c :: rest =>
    if c = '-' then
      match rest with
      | [] => none
      | d :: rest2 => if d.isDigit then slugDigits rest2 else none
    else if isWordChar c then slugWord rest else none

/-- One attempt of the regex ` \([\w]+-[\d]+\)` at the head of the list
(`_get_summary`, line 287).  On success returns the remainder after the match;
greedy matching of `[\w]+` / `[\d]+` needs no backtracking because `\w` matches
neither `-` nor `)` and `\d` does not match `)`. -/
def slugMatch : List Char → Option (List Char)
  | c1 :: c2 :: rest =>
    if c1 = ' ' ∧ c2 = '(' then
      match rest with
      | [] => none
      | c :: rest2 => if isWordChar c then slugWord rest2 else none
    else none
  | _ => none

/-- `re.sub(r' \([\w]+-[\d]+\)', '', s)`: leftmost, non-overlapping removal of
every match, scanning left to right.  `fuel` bounds the recursion; it is
instantiated with the length of the list, which suffices because every step
consumes at least one character. -/
def reSubSlugF : Nat → List Char → List Char
  | _, [] => []
  | 0, l => l
  | fuel + 1, c :: rest =>
    match slugMatch (c :: rest) with
    | some r => reSubSlugF fuel r
    | none => c :: reSubSlugF fuel rest

/-- `re.sub(r' \([\w]+-[\d]+\)', '', s)` from `_get_summary`. -/
def reSubSlug (l : List Char) : List Char := reSubSlugF l.length l

/-- A GitHub label dictionary (`{'name': ...}`), as delivered in events and in
`gh_issue['labels']`. -/
structure GhLabel where
  name : String
deriving DecidableEq, Repr

/-- A GitHub comment dictionary: the fields of `event['comment']` that
`sync_issue.py` reads.  `body` is `Option` because the GitHub API reports an
empty body as `null`. -/
structure GhComment where
  body : Option String
  htmlUrl : String
  userLogin : String
deriving DecidableEq, Repr

/-- A GitHub issue dictionary: the fields of `event['issue']` that
`sync_issue.py` reads.  `isPR` models `'pull_request' in gh_issue`; `state` is
the literal state string compared against `'open'`. -/
structure GhIssue where
  number : Nat
  title : String
  body : Option String
  userLogin : String
  htmlUrl : String
  state : String
  isPR : Bool
  labels : List GhLabel
deriving DecidableEq, Repr

/-- The webhook event dictionary.  Fields that a given event kind may lack are
`Option`; reading an absent one raises `KeyError` exactly where the source
would. `sender` is `event['sender']['login']`, `changesBodyFrom` is
`event['changes']['body']['from']`. -/
structure SyncEvent where
  issue : GhIssue
  sender : Option String
  label : Option GhLabel
  comment : Option GhComment
  changesBodyFrom : Option String
deriving DecidableEq, Repr

/-- A JIRA remote link (`jira.add_remote_link` / `jira.remote_links`). -/
structure RemoteLink where
  globalId : String
  title : String
  resolved : Bool
  relationship : String
deriving DecidableEq, Repr

/-- A JIRA component object; `.name` is the only attribute the source reads. -/
structure Component where
  name : String
deriving DecidableEq, Repr

/-- A JIRA issue type (`jira.issue_types()` entry). -/
structure JiraIssueType where
  id : Nat
  name : String
deriving DecidableEq, Repr

/-- The `issuetype` creation field: either `{'id': N}` from label mapping or a
type name string from the `JIRA_ISSUE_TYPE` environment variable. -/
inductive IssueTypeVal where
  | byId : Nat → IssueTypeVal
  | byName : String → IssueTypeVal
deriving DecidableEq, Repr

/-- A JIRA issue as stored on the (modelled) server: the fields `sync_issue.py`
reads or writes.  `statusCF` is the custom field `customfield_12100`;
`updated` is the server's last-updated ordering key (newer is larger). -/
structure JiraIssue where
  key : String
  id : Nat
  projectKey : String
  summary : String
  description : String
  labels : List String
  components : List Component
  issuetype : IssueTypeVal
  statusCF : String
  remoteLinks : List RemoteLink
  comments : List String
  updated : Nat
deriving DecidableEq, Repr

/-- The JIRA server state.  `projects` maps a project key to its component
names (`jira.project` / `jira.project_components`); `issueTypes` is
`jira.issue_types()`; `nextId` feeds fresh ids/keys for `jira.create_issue`. -/
structure JiraState where
  issues : List JiraIssue
  nextId : Nat
  projects : List (String × List String)
  issueTypes : List JiraIssueType
deriving DecidableEq, Repr

/-- Environment configuration read by the source (`JIRA_PROJECT`,
`JIRA_COMPONENT` — empty string when unset — and `JIRA_ISSUE_TYPE`). -/
structure Config where
  jiraProject : String
  jiraComponent : String
  jiraIssueType : Option String
deriving DecidableEq, Repr

/-- `jira.issue(key)` as a lookup (first issue with the key). -/
def findByKey (st : JiraState) (k : String) : Option JiraIssue :=
  st.issues.find? (fun j => j.key == k)

/-- Server-side issue update: apply `f` to the issue(s) with the given id
(ids are unique on a real server). -/
def stUpdateById (st : JiraState) (tid : Nat) (f : JiraIssue → JiraIssue) : JiraState :=
  { st with issues := st.issues.map (fun j => if j.id = tid then f j else j) }

/-- Apply `f` to the first issue of the list carrying the key. -/
def updateFirstByKeyList (k : String) (f : JiraIssue → JiraIssue) : List JiraIssue → List JiraIssue
  | [] => []
  | j :: t => if j.key == k then f j :: t else j :: updateFirstByKeyList k f t

/-- Update the first issue carrying a key (used for comment objects obtained
from `jira.comments(key)`). -/
def stUpdateFirstByKey (st : JiraState) (k : String) (f : JiraIssue → JiraIssue) : JiraState :=
  { st with issues := updateFirstByKeyList k f st.issues }

/-- `jira.add_remote_link(issue=...)`: append a remote link to the issue. -/
def stAddRemoteLink (st : JiraState) (tid : Nat) (ln : RemoteLink) : JiraState :=
  stUpdateById st tid (fun j => { j with remoteLinks := j.remoteLinks ++ [ln] })

/-- `jira.add_comment(id, body)`: append a comment body to the issue. -/
def stAddComment (st : JiraState) (tid : Nat) (body : String) : JiraState :=
  stUpdateById st tid (fun j => { j with comments := j.comments ++ [body] })

/-- Descending insertion by the `updated` key (the server's
`order by updated desc`). -/
def insertDesc (x : JiraIssue) : List JiraIssue → List JiraIssue
  | [] => [x]
  | y :: t => if x.updated > y.updated then x :: y :: t else y :: insertDesc x t

/-- Sort issues by `updated`, newest first. -/
def sortDesc : List JiraIssue → List JiraIssue
  | [] => []
  | x :: t => insertDesc x (sortDesc t)

/-- The JQL query `issue in issuesWithRemoteLinksByGlobalId("url") order by
updated desc` (`_find_jira_issue`, lines 447-449): the issues having a remote
link whose `globalId` is the GitHub url, newest first. -/
def search_issues (st : JiraState) (url : String) : List JiraIssue :=
  sortDesc (st.issues.filter (fun j => j.remoteLinks.any (fun l => l.globalId == url)))

/-- `jira.project_components(jira.project(key))`: the component names of a
project, `none` when the project does not exist (a raised `JIRAError`). -/
def lookupProjectComponents (st : JiraState) (k : String) : Option (List String) :=
  (st.projects.find? (fun p => p.1 == k)).map (·.2)

/-- `_check_issue_label` (lines 182-191): labels starting with `status:` or
`resolution:` after lower-casing are dropped (return `None`). -/
def _check_issue_label (label : String) : Option String :=
  if pyStartsWith (pyLower label) "status:" || pyStartsWith (pyLower label) "resolution:" then
    none
  else
    some label

/-- `_get_jira_label` (lines 537-539): `gh_label['name'].replace(' ', '-')`. -/
def _get_jira_label (gh_label : GhLabel) : String :=
  ⟨gh_label.name.data.map (fun c => if c = ' ' then '-' else c)⟩

/-- `_update_link_resolved` (lines 194-209): on every remote link of the issue
whose `globalId` equals the GitHub url, set the title to the GitHub title and
the resolved flag to whether the GitHub issue is not open. -/
def _update_link_resolved (st : JiraState) (gh_issue : GhIssue) (tid : Nat) : JiraState :=
  stUpdateById st tid (fun j =>
    { j with remoteLinks := j.remoteLinks.map (fun l =>
        if l.globalId == gh_issue.htmlUrl then
          { l with title := gh_issue.title, resolved := gh_issue.state != "open" }
        else l) })

/-- The markdown file content handed to `markdown2confluence`
(lines 221-224): the body, with a newline appended when it lacks one. -/
def ensureNewline (markdown : String) : String :=
  if markdown.data.getLast? = some '\n' then markdown else markdown ++ "\n"

/-- `_markdown2wiki` (lines 212-235).  `convert` is the external
`markdown2confluence` subprocess; `none` models `CalledProcessError`, in which
case the raw markdown is returned.  A successful conversion longer than 16384
characters is cut to its first 16376 characters plus a trailing marker. -/
def _markdown2wiki (convert : String → Option String) : Option String → String
  | none => "\n"
  | some markdown =>
    match convert (ensureNewline markdown) with
    | some result =>
      if result.length > 16384 then ⟨result.data.take 16376⟩ ++ "\n\n[...]" else result
    | none => markdown

/-- `_get_description` (lines 238-273): the fixed description template, with
`%(...)s` placeholders substituted, and an extra closing-instructions bullet
for issues that are not pull requests. -/
def _get_description (convert : String → Option String) (gh_issue : GhIssue) : String :=
  let t := if gh_issue.isPR then "Pull Request" else "Issue"
  let base :=
    "[GitHub " ++ t ++ "|" ++ gh_issue.htmlUrl ++ "] from user @" ++ gh_issue.userLogin ++
    ":\n\n    " ++ _markdown2wiki convert gh_issue.body ++
    "\n\n    ---\n\n    Notes:\n\n    * Do not edit this description text, it may be updated automatically.\n    * Please interact on GitHub where possible, changes will sync to here.\n    "
  if gh_issue.isPR then
    base
  else
    base ++
      "\n    * If closing this issue from a commit, please add\n      {code}\n      Closes " ++
      gh_issue.htmlUrl ++
      "\n      {code}\n      in the commit message so the commit is closed on GitHub automatically.\n"

/-- `_get_summary` (lines 276-289): `"{PR|GH} #{number}: {title}"`, then
`re.sub(r' \([\w]+-[\d]+\)', '', ...)` over the whole string. -/
def _get_summary (gh_issue : GhIssue) : String :=
  let result :=
    (if gh_issue.isPR then "PR" else "GH") ++ " #" ++ Nat.repr gh_issue.number ++ ": " ++
      gh_issue.title
  ⟨reSubSlug result.data⟩

/-- ID for the New Feature issue type in Jira (line 29). -/
def JIRA_NEW_FEATURE_TYPE_ID : Nat := 10101

/-- ID for the Bug issue type in Jira (line 31). -/
def JIRA_BUG_TYPE_ID : Nat := 10004

/-- Inner loop of `_get_jira_issue_type` (lines 422-427): first issue type
whose lower-cased name equals the label, bare or as `type: name`. -/
def findTypeForLabel (types : List JiraIssueType) (lbl : String) : Option Nat :=
  (types.find? (fun t =>
      pyLower lbl == pyLower t.name || pyLower lbl == "type: " ++ pyLower t.name)).map (·.id)

/-- Outer loop of `_get_jira_issue_type` (lines 412-427) over the GitHub label
names, with the two hardcoded special cases. -/
def issueTypeFromLabels (types : List JiraIssueType) : List String → Option Nat
  | [] => none
  | lbl :: rest =>
    if lbl = "Type: Feature Request" then some JIRA_NEW_FEATURE_TYPE_ID
    else if lbl = "Type: Bug :bug:" then some JIRA_BUG_TYPE_ID
    else
      match findTypeForLabel types lbl with
      | some tid => some tid
      | none => issueTypeFromLabels types rest

/-- `_get_jira_issue_type` (lines 400-429). -/
def _get_jira_issue_type (st : JiraState) (gh_issue : GhIssue) : Option Nat :=
  issueTypeFromLabels st.issueTypes (gh_issue.labels.map (·.name))

/-- The comparison `component.name != component` on line 396: the loop variable
`component` (a jira `Component` object) shadows the configured component name,
so a `str` is compared with a `Component` object; no cross-type equality is
defined, hence the comparison is always true. -/
def strNeComponentObj (_ : String) (_ : Component) : Bool := true

/-- `_update_components_field` (lines 362-397).  Returns the value stored into
`fields['components']` (`none` when the field is left unset).  `jira.project`
on an unknown project key raises (`JIRAError`). -/
def _update_components_field (cfg : Config) (st : JiraState) (existing_issue : Option JiraIssue) :
    Except PyErr (Option (List String)) :=
  if cfg.jiraComponent = "" then .ok none
  else
    let projectKey := match existing_issue with
      | some i => i.projectKey
      | none => cfg.jiraProject
    match lookupProjectComponents st projectKey with
    | none => .error .jiraError
    | some project_components =>
      if cfg.jiraComponent ∉ project_components then .ok none
      else
        .ok (some ([cfg.jiraComponent] ++
          (match existing_issue with
           | none => []
           | some i =>
             (i.components.filter (fun c => strNeComponentObj c.name c)).map (·.name))))

/-- `re.search(r'\(([A-Z]+-\d+)\)\s*$', title)` (line 456): the captured
`KEY-123` token when the title ends, up to trailing whitespace, in a
parenthesized uppercase-letters/hyphen/digits token. -/
def extractTrailingKey (title : String) : Option String :=
  match title.data.reverse.dropWhile pyIsSpace with
  | ')' :: r1 =>
    let ds := r1.takeWhile Char.isDigit
    if ds.isEmpty then none
    else
      match r1.drop ds.length with
      | '-' :: r2 =>
        let us := r2.takeWhile Char.isUpper
        if us.isEmpty then none
        else
          match r2.drop us.length with
          | '(' :: _ => some ⟨us.reverse ++ '-' :: ds.reverse⟩
          | _ => none
      | _ => none
  | _ => none

/-- The remote link written by `_add_remote_link` (lines 326-339): `globalId`
is always the GitHub url; the server stores the resolved flag as false until
`_update_link_resolved` touches it. -/
def mkRemoteLink (gh_issue : GhIssue) : RemoteLink :=
  { globalId := gh_issue.htmlUrl
    title := gh_issue.title
    resolved := false
    relationship := "synced from" }

/-- The manual-match fallback of `_find_jira_issue` (lines 453-471): when the
GitHub title carries a trailing `(KEY-123)` token, fetch that issue and, if its
description contains the GitHub url, register a remote link and return it.
`jira.issue` on a missing or unauthorized key raises `JIRAError`; the handler
clause `except jira.exceptions.JIRAError` (line 467) then evaluates the
attribute `exceptions` on `jira` — which is the jira *client* parameter
shadowing the `jira` module and has no such attribute — so an
`AttributeError` is raised instead of the error being swallowed. -/
def manualMatchStep (st : JiraState) (gh_issue : GhIssue) :
    Except PyErr (Option (JiraState × JiraIssue)) :=
  match extractTrailingKey gh_issue.title with
  | none => .ok none
  | some key =>
    match findByKey st key with
    | none => .error .attributeError
    | some issue =>
      if subStr gh_issue.htmlUrl.data issue.description.data then
        .ok (some (stAddRemoteLink st issue.id (mkRemoteLink gh_issue), issue))
      else .ok none

/-- Write the custom status field `customfield_12100`. -/
def setStatusCF (v : String) (j : JiraIssue) : JiraIssue := { j with statusCF := v }

/-- `_create_jira_issue` (lines 292-323).  The created issue gets a fresh id
and a `PROJECT-n` key from the server counter; its `updated` ordering key is
the newest.  The steps after creation mirror the source: set the status custom
field to Open (its `except JIRAError` branch is unreachable here because the
modelled update succeeds), add the remote link, append the JIRA key to the
GitHub title (`_update_github_with_jira_key` — a source-tracker side effect
outside `JiraState`), and mark the link resolved when the GitHub issue is not
open. -/
def _create_jira_issue (cfg : Config) (convert : String → Option String) (st : JiraState)
    (gh_issue : GhIssue) : Except PyErr (JiraState × JiraIssue) :=
  let issuetype : IssueTypeVal :=
    match _get_jira_issue_type st gh_issue with
    | some tid => .byId tid
    | none => .byName (cfg.jiraIssueType.getD "Task")
  match _update_components_field cfg st none with
  | .error e => .error e
  | .ok compOpt =>
    let newIssue : JiraIssue :=
      { key := cfg.jiraProject ++ "-" ++ Nat.repr st.nextId
        id := st.nextId
        projectKey := cfg.jiraProject
        summary := _get_summary gh_issue
        description := _get_description convert gh_issue
        labels := gh_issue.labels.map _get_jira_label
        components := (compOpt.getD []).map (fun n => ⟨n⟩)
        issuetype := issuetype
        statusCF := ""
        remoteLinks := []
        comments := []
        updated := st.nextId }
    let st1 : JiraState :=
      { st with issues := st.issues ++ [newIssue], nextId := st.nextId + 1 }
    let st2 := stUpdateById st1 newIssue.id (setStatusCF "Open")
    let st3 := stAddRemoteLink st2 newIssue.id (mkRemoteLink gh_issue)
    let st4 := if gh_issue.state != "open" then _update_link_resolved st3 gh_issue newIssue.id
               else st3
    .ok (st4, newIssue)

/-- Result of `_find_jira_issue`: the server state after resolution, the found
or created issue (`none` is Python's `None`), and how many
`time.sleep(random.randrange(30, 60))` retry waits were performed. -/
structure FindRes where
  st : JiraState
  issue : Option JiraIssue
  sleeps : Nat
deriving DecidableEq, Repr

/-- The retry-independent part of `_find_jira_issue` (lines 446-471): the
remote-link search — on ≥ 1 results the newest-updated one is returned (a
warning is only logged for > 1) — followed, when the search is empty, by the
manual-match fallback.  `.ok none` means "still not found". -/
def findPrelude (st : JiraState) (gh_issue : GhIssue) :
    Except PyErr (Option (JiraState × JiraIssue)) :=
  match search_issues st gh_issue.htmlUrl with
  | issue :: _ => .ok (some (st, issue))
  | [] => manualMatchStep st gh_issue

/-- `_find_jira_issue` (lines 432-495): search by remote-link `globalId`
(newest updated first); on no result try the manual-match fallback; then, when
`make_new` is set, sleep-and-retry up to `retries` times before creating the
issue.  The search and fallback do not depend on `retries`, so the recursion
is written with the retry counter as the outermost case split; the recursive
call passes `True` for `make_new` as the source does (line 488). -/
def _find_jira_issue (cfg : Config) (convert : String → Option String) (st : JiraState)
    (gh_issue : GhIssue) (make_new : Bool) : Nat → Except PyErr FindRes
  | r + 1 =>
    match findPrelude st gh_issue with
    | .error e => .error e
    | .ok (some (st2, issue)) => .ok ⟨st2, some issue, 0⟩
    | .ok none =>
      if !make_new then .ok ⟨st, none, 0⟩
      else
        match _find_jira_issue cfg convert st gh_issue true r with
        | .ok res => .ok ⟨res.st, res.issue, res.sleeps + 1⟩
        | .error e => .error e
  | 0 =>
    match findPrelude st gh_issue with
    | .error e => .error e
    | .ok (some (st2, issue)) => .ok ⟨st2, some issue, 0⟩
    | .ok none =>
      if !make_new then .ok ⟨st, none, 0⟩
      else
        match _create_jira_issue cfg convert st gh_issue with
        | .ok (st2, issue) => .ok ⟨st2, some issue, 0⟩
        | .error e => .error e

/-- `_leave_jira_issue_comment` (lines 498-524): resolve the issue (unless one
is passed in), then add the `has been <verb> by @user` comment; returns the
issue, or `None` when resolution found none. -/
def _leave_jira_issue_comment (cfg : Config) (convert : String → Option String) (st : JiraState)
    (event : SyncEvent) (verb : String) (should_create : Bool)
    (jira_issue : Option JiraIssue := none) : Except PyErr (JiraState × Option JiraIssue) :=
  let gh_issue := event.issue
  let is_pr := gh_issue.isPR
  let resolved : Except PyErr (JiraState × Option JiraIssue) :=
    match jira_issue with
    | some ji => .ok (st, some ji)
    | none =>
      match _find_jira_issue cfg convert st gh_issue should_create 5 with
      | .error e => .error e
      | .ok res =>
        match res.issue with
        | none => .ok (res.st, none)
        | some ji => .ok (res.st, some ji)
  match resolved with
  | .error e => .error e
  | .ok (st1, none) => .ok (st1, none)
  | .ok (st1, some ji) =>
    let user := event.sender.getD gh_issue.userLogin
    let body :=
      "The [GitHub " ++ (if is_pr then "PR" else "issue") ++ "|" ++ gh_issue.htmlUrl ++
        "] has been " ++ verb ++ " by @" ++ user
    .ok (stAddComment st1 ji.id body, some ji)

/-- `_get_jira_comment_body` (lines 527-534): the textual fingerprint of a
GitHub comment on the JIRA side. -/
def _get_jira_comment_body (convert : String → Option String) (gh_comment : GhComment)
    (body : Option String := none) : String :=
  let b := match body with
    | none => _markdown2wiki convert gh_comment.body
    | some b0 => b0
  "[GitHub issue comment|" ++ gh_comment.htmlUrl ++ "] by @" ++ gh_comment.userLogin ++ ":\n\n" ++ b

/-- `handle_issue_opened` (lines 38-47): resolve without creating; when found,
log and return; otherwise create. -/
def handle_issue_opened (cfg : Config) (convert : String → Option String) (st : JiraState)
    (event : SyncEvent) : Except PyErr JiraState :=
  match _find_jira_issue cfg convert st event.issue false 5 with
  | .error e => .error e
  | .ok res =>
    match res.issue with
    | some _ => .ok res.st
    | none =>
      match _create_jira_issue cfg convert res.st event.issue with
      | .ok (st2, _) => .ok st2
      | .error e => .error e

/-- `handle_issue_closed` (lines 68-79): leave a `closed` comment without
creating, then `issue.update(fields={'customfield_12100': ...})` — on a `None`
issue this attribute access raises `AttributeError`, which the
`except JIRAError` clause does not catch; the `if issue is not None` guard
only protects the later `_update_link_resolved` call. -/
def handle_issue_closed (cfg : Config) (convert : String → Option String) (st : JiraState)
    (event : SyncEvent) : Except PyErr JiraState :=
  match _leave_jira_issue_comment cfg convert st event "closed" false with
  | .error e => .error e
  | .ok (st1, issueOpt) =>
    match issueOpt with
    | none => .error .attributeError
    | some ji =>
      let st2 := stUpdateById st1 ji.id (setStatusCF "Closed")
      .ok (_update_link_resolved st2 event.issue ji.id)

/-- `handle_issue_reopened` (lines 122-129): like Closed but with
`should_create=True` and status value Open; with creation enabled the resolved
issue is never `None`, so the unguarded update and link refresh succeed. -/
def handle_issue_reopened (cfg : Config) (convert : String → Option String) (st : JiraState)
    (event : SyncEvent) : Except PyErr JiraState :=
  match _leave_jira_issue_comment cfg convert st event "reopened" true with
  | .error e => .error e
  | .ok (st1, issueOpt) =>
    match issueOpt with
    | none => .error .attributeError
    | some ji =>
      let st2 := stUpdateById st1 ji.id (setStatusCF "Open")
      .ok (_update_link_resolved st2 event.issue ji.id)

/-- `handle_issue_labeled` (lines 82-96): resolve (creating only when the
GitHub issue is open); drop reserved labels; append the mapped label when it
is not present yet. -/
def handle_issue_labeled (cfg : Config) (convert : String → Option String) (st : JiraState)
    (event : SyncEvent) : Except PyErr JiraState :=
  let gh_issue := event.issue
  match _find_jira_issue cfg convert st gh_issue (gh_issue.state == "open") 5 with
  | .error e => .error e
  | .ok res =>
    match res.issue with
    | none => .ok res.st
    | some ji =>
      match event.label with
      | none => .error .keyError
      | some lbl =>
        let labels := ji.labels
        let new_label := _get_jira_label lbl
        match _check_issue_label new_label with
        | none => .ok res.st
        | some _ =>
          if new_label ∈ labels then .ok res.st
          else
            .ok (stUpdateById res.st ji.id (fun j => { j with labels := labels ++ [new_label] }))

/-- `handle_issue_unlabeled` (lines 99-115): as Labeled, but removing the
first occurrence; `list.remove` on an absent label raises `ValueError`, which
is caught and ignored (no update call happens then). -/
def handle_issue_unlabeled (cfg : Config) (convert : String → Option String) (st : JiraState)
    (event : SyncEvent) : Except PyErr JiraState :=
  let gh_issue := event.issue
  match _find_jira_issue cfg convert st gh_issue (gh_issue.state == "open") 5 with
  | .error e => .error e
  | .ok res =>
    match res.issue with
    | none => .ok res.st
    | some ji =>
      match event.label with
      | none => .error .keyError
      | some lbl =>
        let labels := ji.labels
        let removed_label := _get_jira_label lbl
        match _check_issue_label removed_label with
        | none => .ok res.st
        | some _ =>
          if removed_label ∈ labels then
            .ok (stUpdateById res.st ji.id (fun j => { j with labels := labels.erase removed_label }))
          else .ok res.st

/-- Replace the first comment body equal to `old` by `new` (the
found-and-break loop of `handle_comment_edited`). -/
def replaceFirstComment : List String → String → String → List String
  | [], _, _ => []
  | b :: t, old, new => if b = old then new :: t else b :: replaceFirstComment t old new

/-- `handle_comment_edited` (lines 139-155): resolve with creation; look for a
comment whose body equals the fingerprint of the previous text and update it
in place; otherwise add a new comment. -/
def handle_comment_edited (cfg : Config) (convert : String → Option String) (st : JiraState)
    (event : SyncEvent) : Except PyErr JiraState :=
  match event.comment with
  | none => .error .keyError
  | some gh_comment =>
    match event.changesBodyFrom with
    | none => .error .keyError
    | some fromBody =>
      let old_gh_body := _markdown2wiki convert (some fromBody)
      match _find_jira_issue cfg convert st event.issue true 5 with
      | .error e => .error e
      | .ok res =>
        match res.issue with
        | none => .error .attributeError
        | some ji =>
          match findByKey res.st ji.key with
          | none => .error .jiraError
          | some onServer =>
            let old_jira_body := _get_jira_comment_body convert gh_comment (some old_gh_body)
            if old_jira_body ∈ onServer.comments then
              .ok (stUpdateFirstByKey res.st ji.key (fun j =>
                { j with comments := (replaceFirstComment j.comments old_jira_body
                    (_get_jira_comment_body convert gh_comment)) }))
            else
              .ok (stAddComment res.st ji.id (_get_jira_comment_body convert gh_comment))



/-! ### Verified properties -/

/-- C10: when the external conversion succeeds, `_markdown2wiki` returns at
most 16384 characters, truncating any longer conversion result to its first
16376 characters followed by the marker `"\n\n[...]"`. -/
theorem markdown2wiki_truncates (convert : String → Option String) (md result : String)
    (h : convert (ensureNewline md) = some result) :
    (_markdown2wiki convert (some md)).length ≤ 16384 ∧
    (result.length > 16384 →
      _markdown2wiki convert (some md) = ⟨result.data.take 16376⟩ ++ "\n\n[...]") ∧
    (result.length ≤ 16384 → _markdown2wiki convert (some md) = result) := by
  have hout : _markdown2wiki convert (some md) =
      (if result.length > 16384 then ⟨result.data.take 16376⟩ ++ "\n\n[...]" else result) := by
    simp only [_markdown2wiki, h]
  have h7 : (String.mk (result.data.take 16376) ++ "\n\n[...]").length
      = (result.data.take 16376).length + 7 := by
    show (result.data.take 16376 ++ "\n\n[...]".data).length = _
    rw [List.length_append]
    rfl
  have htk : (result.data.take 16376).length = min 16376 result.data.length :=
    List.length_take _ _
  have hR : result.length = result.data.length := rfl
  refine ⟨?_, ?_, ?_⟩
  · rw [hout]
    split
    · next hgt => rw [h7, htk]; omega
    · next hle => omega
  · intro hgt
    rw [hout, if_pos hgt]
  · intro hle
    rw [hout, if_neg (by omega)]

/-- C10 witness: a conversion that succeeds on a concrete input. -/
theorem markdown2wiki_truncates_witness :
    (fun _ : String => some "wiki text") (ensureNewline "hi") = some "wiki text" ∧
    (_markdown2wiki (fun _ : String => some "wiki text") (some "hi")).length ≤ 16384 :=
  ⟨rfl, (markdown2wiki_truncates (fun _ : String => some "wiki text") "hi" "wiki text" rfl).1⟩

/-- C4: evaluating `_update_components_field` for an existing issue whose
component set already contains the configured component "X" (and with "X"
among the project's components) yields the field value `["X", "X"]` — the
configured component appears twice, because the comparison on line 396 reads
the shadowing loop variable and never excludes anything. -/
theorem update_components_field_duplicates :
    _update_components_field ⟨"PROJ", "X", none⟩ ⟨[], 0, [("PROJ", ["X"])], []⟩
        (some { key := "PROJ-1", id := 0, projectKey := "PROJ", summary := "", description := ""
                labels := [], components := [⟨"X"⟩], issuetype := .byName "Task", statusCF := ""
                remoteLinks := [], comments := [], updated := 0 }) = .ok (some ["X", "X"]) ∧
    List.count "X" ["X", "X"] = 2 := by
  constructor
  · rfl
  · decide

/-- C2: when identity resolution with creation disabled reports "not found",
`handle_issue_closed` raises `AttributeError` (from `None.update(...)`,
line 75) instead of completing as a no-op. -/
theorem handle_issue_closed_none_raises (cfg : Config) (convert : String → Option String)
    (st st1 : JiraState) (ev : SyncEvent) (n : Nat)
    (h : _find_jira_issue cfg convert st ev.issue false 5 = .ok ⟨st1, none, n⟩) :
    handle_issue_closed cfg convert st ev = .error .attributeError := by
  simp only [handle_issue_closed, _leave_jira_issue_comment, h]

/-- C2 witness: a concrete closed event (empty tracker, plain title) on which
resolution finds nothing and the handler raises. -/
theorem handle_issue_closed_none_raises_witness :
    _find_jira_issue ⟨"PROJ", "", none⟩ (fun _ => none) ⟨[], 0, [], []⟩
        ({ number := 7, title := "plain title", body := none, userLogin := "u"
           htmlUrl := "https://gh/7", state := "closed", isPR := false, labels := [] } : GhIssue)
        false 5 = .ok ⟨⟨[], 0, [], []⟩, none, 0⟩ ∧
    handle_issue_closed ⟨"PROJ", "", none⟩ (fun _ => none) ⟨[], 0, [], []⟩
        { issue := { number := 7, title := "plain title", body := none, userLogin := "u"
                     htmlUrl := "https://gh/7", state := "closed", isPR := false, labels := [] }
          sender := none, label := none, comment := none, changesBodyFrom := none } =
      .error .attributeError :=
  ⟨rfl, handle_issue_closed_none_raises _ _ _ _ _ _ rfl⟩

/-- C8: with no remote-link match, a trailing `(KEY-123)` title token naming an
issue the lookup cannot fetch makes `_find_jira_issue` raise `AttributeError`
(the `except jira.exceptions.JIRAError` clause reads a nonexistent attribute of
the jira client), instead of swallowing the lookup error and continuing. -/
theorem find_manual_lookup_raises (cfg : Config) (convert : String → Option String)
    (st : JiraState) (gh : GhIssue) (key : String) (make_new : Bool) (retries : Nat)
    (hs : search_issues st gh.htmlUrl = [])
    (hk : extractTrailingKey gh.title = some key)
    (hb : findByKey st key = none) :
    _find_jira_issue cfg convert st gh make_new retries = .error .attributeError := by
  cases retries <;>
    simp only [_find_jira_issue, findPrelude, hs, manualMatchStep, hk, hb]

/-- C8 witness: empty tracker, GitHub title carrying a trailing key token that
names a JIRA issue which does not exist. -/
theorem find_manual_lookup_raises_witness :
    search_issues ⟨[], 0, [], []⟩ "https://gh/3" = [] ∧
    extractTrailingKey "Crash (FOO-123)" = some "FOO-123" ∧
    findByKey ⟨[], 0, [], []⟩ "FOO-123" = none ∧
    _find_jira_issue ⟨"PROJ", "", none⟩ (fun _ => none) ⟨[], 0, [], []⟩
        ({ number := 3, title := "Crash (FOO-123)", body := none, userLogin := "u"
           htmlUrl := "https://gh/3", state := "open", isPR := false, labels := [] } : GhIssue)
        false 5 = .error .attributeError :=
  ⟨rfl, rfl, rfl, find_manual_lookup_raises _ _ _ _ "FOO-123" _ _ rfl rfl rfl⟩

/-- When the remote-link search succeeds, `_find_jira_issue` returns the
newest-updated result at once, with no state change and no retry sleeps. -/
theorem find_of_search_cons (cfg : Config) (convert : String → Option String) (st : JiraState)
    (gh : GhIssue) (b : Bool) (r : Nat) (i : JiraIssue) (rest : List JiraIssue)
    (h : search_issues st gh.htmlUrl = i :: rest) :
    _find_jira_issue cfg convert st gh b r = .ok ⟨st, some i, 0⟩ := by
  cases r <;> simp only [_find_jira_issue, findPrelude, h]

/-- Replacing spaces by hyphens cannot destroy a space-free lower-cased
prefix of a string. -/
theorem isPrefixOf_lower_replace (p : List Char) (hp : ' ' ∉ p) :
    ∀ s : List Char, p.isPrefixOf (s.map pyLowerChar) = true →
      p.isPrefixOf ((s.map (fun c => if c = ' ' then '-' else c)).map pyLowerChar) = true := by
  induction p with
  | nil => intro s _; simp [List.isPrefixOf]
  | cons x p' ih =>
    intro s h
    cases s with
    | nil => simp [List.isPrefixOf] at h
    | cons c s' =>
      simp only [List.map_cons, List.isPrefixOf, Bool.and_eq_true, beq_iff_eq] at h ⊢
      have hx : x ≠ ' ' := fun hx => hp (hx ▸ List.mem_cons_self x p')
      have hc : c ≠ ' ' := by
        intro hc
        apply hx
        rw [h.1, hc]
        rfl
      refine ⟨by rw [if_neg hc]; exact h.1, ih (fun hm => hp (List.mem_cons_of_mem x hm)) s' h.2⟩

/-- C9: a reserved-prefix label (any letter case) makes both label handlers
leave the tracker state entirely unchanged, given the target issue exists
(the remote-link search finds it). -/
theorem reserved_labels_ignored (cfg : Config) (convert : String → Option String)
    (st : JiraState) (ev : SyncEvent) (lbl : GhLabel) (i : JiraIssue) (rest : List JiraIssue)
    (hl : ev.label = some lbl)
    (hres : pyStartsWith (pyLower lbl.name) "status:" = true ∨
            pyStartsWith (pyLower lbl.name) "resolution:" = true)
    (hsearch : search_issues st ev.issue.htmlUrl = i :: rest) :
    handle_issue_labeled cfg convert st ev = .ok st ∧
    handle_issue_unlabeled cfg convert st ev = .ok st := by
  have hgate : _check_issue_label (_get_jira_label lbl) = none := by
    unfold _check_issue_label
    rw [if_pos]
    rcases hres with h | h
    · have := isPrefixOf_lower_replace "status:".data (by decide) lbl.name.data h
      simp only [pyStartsWith, pyLower, _get_jira_label, this, Bool.true_or]
    · have := isPrefixOf_lower_replace "resolution:".data (by decide) lbl.name.data h
      simp only [pyStartsWith, pyLower, _get_jira_label, this, Bool.or_true]
  constructor
  · simp only [handle_issue_labeled,
      find_of_search_cons cfg convert st ev.issue (ev.issue.state == "open") 5 i rest hsearch,
      hl, hgate]
  · simp only [handle_issue_unlabeled,
      find_of_search_cons cfg convert st ev.issue (ev.issue.state == "open") 5 i rest hsearch,
      hl, hgate]

/-- Concrete server issue for the C9 witness scenario. -/
def c9Issue : JiraIssue :=
  { key := "PROJ-1", id := 1, projectKey := "PROJ", summary := "GH #9: t", description := "d"
    labels := ["existing"], components := [], issuetype := .byName "Task", statusCF := "Open"
    remoteLinks := [{ globalId := "https://gh/9", title := "t", resolved := false
                      relationship := "synced from" }]
    comments := [], updated := 3 }

/-- Concrete labeled/unlabeled event for the C9 witness scenario. -/
def c9Event : SyncEvent :=
  { issue := { number := 9, title := "t", body := none, userLogin := "u"
               htmlUrl := "https://gh/9", state := "open", isPR := false, labels := [] }
    sender := none, label := some ⟨"Status: Done"⟩, comment := none, changesBodyFrom := none }

/-- C9 witness: a mixed-case `Status:` label on an issue whose target exists;
both handlers return the state unchanged. -/
theorem reserved_labels_ignored_witness :
    c9Event.label = some ⟨"Status: Done"⟩ ∧
    pyStartsWith (pyLower "Status: Done") "status:" = true ∧
    search_issues ⟨[c9Issue], 2, [], []⟩ c9Event.issue.htmlUrl = [c9Issue] ∧
    handle_issue_labeled ⟨"PROJ", "", none⟩ (fun _ => none) ⟨[c9Issue], 2, [], []⟩ c9Event =
      .ok ⟨[c9Issue], 2, [], []⟩ ∧
    handle_issue_unlabeled ⟨"PROJ", "", none⟩ (fun _ => none) ⟨[c9Issue], 2, [], []⟩ c9Event =
      .ok ⟨[c9Issue], 2, [], []⟩ := by
  refine ⟨rfl, by decide, rfl, ?_⟩
  exact reserved_labels_ignored ⟨"PROJ", "", none⟩ (fun _ => none) ⟨[c9Issue], 2, [], []⟩
    c9Event ⟨"Status: Done"⟩ c9Issue [] rfl (Or.inl (by decide)) rfl

/-- Replacing the first matching comment keeps the number of comments. -/
theorem replaceFirstComment_length (l : List String) (old new : String) :
    (replaceFirstComment l old new).length = l.length := by
  induction l with
  | nil => rfl
  | cons b t ih =>
    unfold replaceFirstComment
    split
    · rfl
    · simp [ih]

/-- List-level form: updating the first issue with a key-preserving function
commutes with the key lookup. -/
theorem find_updateFirstByKeyList (k : String) (f : JiraIssue → JiraIssue) (i : JiraIssue)
    (hk : (f i).key = i.key) :
    ∀ l : List JiraIssue, l.find? (fun j => j.key == k) = some i →
      (updateFirstByKeyList k f l).find? (fun j => j.key == k) = some (f i) := by
  intro l
  induction l with
  | nil => intro h; simp [List.find?] at h
  | cons j t ih =>
    intro h
    rw [List.find?_cons] at h
    unfold updateFirstByKeyList
    cases hj : (j.key == k) with
    | true =>
      rw [hj] at h
      injection h with h
      subst h
      rw [if_pos rfl, List.find?_cons]
      have hf : ((f j).key == k) = true := by rw [hk]; exact hj
      rw [hf]
    | false =>
      rw [hj] at h
      rw [if_neg (by simp), List.find?_cons, hj]
      exact ih h

/-- State-level corollary for `stUpdateFirstByKey`. -/
theorem findByKey_updateFirst (st : JiraState) (k : String) (f : JiraIssue → JiraIssue)
    (i : JiraIssue) (h : findByKey st k = some i) (hk : (f i).key = i.key) :
    findByKey (stUpdateFirstByKey st k f) k = some (f i) :=
  find_updateFirstByKeyList k f i hk st.issues h

/-- List-level form: a by-id update with a key-preserving function commutes
with the key lookup. -/
theorem find_key_map_updateById (k : String) (tid : Nat) (f : JiraIssue → JiraIssue)
    (i : JiraIssue) (hk : ∀ j, (f j).key = j.key) :
    ∀ l : List JiraIssue, l.find? (fun j => j.key == k) = some i →
      (l.map (fun j => if j.id = tid then f j else j)).find? (fun j => j.key == k) =
        some (if i.id = tid then f i else i) := by
  intro l
  induction l with
  | nil => intro h; simp [List.find?] at h
  | cons j t ih =>
    intro h
    rw [List.find?_cons] at h
    have hkey : (if j.id = tid then f j else j).key = j.key := by
      split
      · exact hk j
      · rfl
    cases hj : (j.key == k) with
    | true =>
      rw [hj] at h
      injection h with h
      subst h
      rw [List.map_cons, List.find?_cons]
      have hp : ((if j.id = tid then f j else j).key == k) = true := by rw [hkey]; exact hj
      rw [hp]
    | false =>
      rw [hj] at h
      rw [List.map_cons, List.find?_cons]
      have hp : ((if j.id = tid then f j else j).key == k) = false := by rw [hkey]; exact hj
      rw [hp]
      exact ih h

/-- Appending a comment through the issue id leaves it visible to the key
lookup, with the new body appended. -/
theorem findByKey_stAddComment (st : JiraState) (i : JiraIssue) (body : String)
    (h : findByKey st i.key = some i) :
    findByKey (stAddComment st i.id body) i.key =
      some { i with comments := i.comments ++ [body] } := by
  have hmain := find_key_map_updateById i.key i.id
    (fun j => { j with comments := j.comments ++ [body] }) i (fun j => rfl) st.issues h
  rw [if_pos rfl] at hmain
  exact hmain

/-- C7: on a comment-edited event, when some target comment equals the
fingerprint of the previous body the handler rewrites exactly that comment in
place (same number of comments, none appended); otherwise it appends the new
fingerprint as a fresh comment — in both cases without failing. -/
theorem comment_edited_in_place_or_append (cfg : Config) (convert : String → Option String)
    (st st' : JiraState) (ev : SyncEvent) (gc : GhComment) (fromBody : String)
    (i : JiraIssue) (n : Nat)
    (hc : ev.comment = some gc)
    (hf : ev.changesBodyFrom = some fromBody)
    (hfind : _find_jira_issue cfg convert st ev.issue true 5 = .ok ⟨st', some i, n⟩)
    (hkey : findByKey st' i.key = some i) :
    (handle_comment_edited cfg convert st ev).map
        (fun s => (findByKey s i.key).map (fun j => j.comments)) =
      .ok (some
        (if _get_jira_comment_body convert gc (some (_markdown2wiki convert (some fromBody))) ∈
            i.comments then
          replaceFirstComment i.comments
            (_get_jira_comment_body convert gc (some (_markdown2wiki convert (some fromBody))))
            (_get_jira_comment_body convert gc none)
        else i.comments ++ [_get_jira_comment_body convert gc none])) ∧
    (replaceFirstComment i.comments
        (_get_jira_comment_body convert gc (some (_markdown2wiki convert (some fromBody))))
        (_get_jira_comment_body convert gc none)).length = i.comments.length := by
  refine ⟨?_, replaceFirstComment_length _ _ _⟩
  simp only [handle_comment_edited, hc, hf, hfind, hkey]
  split
  · next hmem =>
    have := findByKey_updateFirst st' i.key
      (fun j => { j with comments := (replaceFirstComment j.comments
        (_get_jira_comment_body convert gc (some (_markdown2wiki convert (some fromBody))))
        (_get_jira_comment_body convert gc none)) }) i hkey rfl
    simp [Except.map, this]
  · next hmem =>
    have := findByKey_stAddComment st' i (_get_jira_comment_body convert gc none) hkey
    simp [Except.map, this]

/-- Concrete target issue for the C7 witness: linked to the GitHub issue and
already carrying the fingerprint comment of the previous body text. -/
def c7Issue : JiraIssue :=
  { key := "PROJ-2", id := 2, projectKey := "PROJ", summary := "GH #4: t", description := "d"
    labels := [], components := [], issuetype := .byName "Task", statusCF := "Open"
    remoteLinks := [{ globalId := "https://gh/4", title := "t", resolved := false
                      relationship := "synced from" }]
    comments := ["[GitHub issue comment|https://gh/c1] by @alice:\n\nprev"], updated := 1 }

/-- Concrete comment-edited event for the C7 witness. -/
def c7Event : SyncEvent :=
  { issue := { number := 4, title := "t", body := none, userLogin := "u"
               htmlUrl := "https://gh/4", state := "open", isPR := false, labels := [] }
    sender := none, label := none
    comment := some { body := some "newbody", htmlUrl := "https://gh/c1", userLogin := "alice" }
    changesBodyFrom := some "prev" }

/-- C7 witness: resolution finds the linked issue; a comment matches the old
fingerprint, so the handler's in-place branch is exercised. -/
theorem comment_edited_in_place_or_append_witness :
    _find_jira_issue ⟨"PROJ", "", none⟩ (fun _ => none) ⟨[c7Issue], 3, [], []⟩ c7Event.issue
        true 5 = .ok ⟨⟨[c7Issue], 3, [], []⟩, some c7Issue, 0⟩ ∧
    findByKey ⟨[c7Issue], 3, [], []⟩ c7Issue.key = some c7Issue ∧
    (handle_comment_edited ⟨"PROJ", "", none⟩ (fun _ => none) ⟨[c7Issue], 3, [], []⟩
          c7Event).map
        (fun s => (findByKey s c7Issue.key).map (fun j => j.comments)) =
      .ok (some
        (if _get_jira_comment_body (fun _ => none)
              { body := some "newbody", htmlUrl := "https://gh/c1", userLogin := "alice" }
              (some (_markdown2wiki (fun _ => none) (some "prev"))) ∈ c7Issue.comments then
          replaceFirstComment c7Issue.comments
            (_get_jira_comment_body (fun _ => none)
              { body := some "newbody", htmlUrl := "https://gh/c1", userLogin := "alice" }
              (some (_markdown2wiki (fun _ => none) (some "prev"))))
            (_get_jira_comment_body (fun _ => none)
              { body := some "newbody", htmlUrl := "https://gh/c1", userLogin := "alice" } none)
        else c7Issue.comments ++
          [_get_jira_comment_body (fun _ => none)
            { body := some "newbody", htmlUrl := "https://gh/c1", userLogin := "alice" } none])) :=
  ⟨rfl, rfl,
    (comment_edited_in_place_or_append ⟨"PROJ", "", none⟩ (fun _ => none) ⟨[c7Issue], 3, [], []⟩
      ⟨[c7Issue], 3, [], []⟩ c7Event
      { body := some "newbody", htmlUrl := "https://gh/c1", userLogin := "alice" } "prev"
      c7Issue 0 rfl rfl rfl rfl).1⟩

/-- A successful `slugDigits` strictly shortens the list. -/
theorem slugDigits_lt : ∀ l r : List Char, slugDigits l = some r → r.length < l.length := by
  intro l
  induction l with
  | nil => intro r h; simp [slugDigits] at h
  | cons c t ih =>
    intro r h
    unfold slugDigits at h
    split at h
    · injection h with h
      subst h
      simp
    · split at h
      · exact Nat.lt_trans (ih r h) (by simp)
      · exact absurd h (by simp)

/-- A successful `slugWord` strictly shortens the list. -/
theorem slugWord_lt : ∀ l r : List Char, slugWord l = some r → r.length < l.length := by
  intro l
  induction l with
  | nil => intro r h; simp [slugWord] at h
  | cons c t ih =>
    intro r h
    unfold slugWord at h
    split at h
    · split at h
      · exact absurd h (by simp)
      · split at h
        · have := slugDigits_lt _ _ h
          simp only [List.length_cons]
          omega
        · exact absurd h (by simp)
    · split at h
      · exact Nat.lt_trans (ih r h) (by simp)
      · exact absurd h (by simp)

/-- A successful `slugMatch` strictly shortens the list. -/
theorem slugMatch_lt : ∀ l r : List Char, slugMatch l = some r → r.length < l.length := by
  intro l r h
  unfold slugMatch at h
  split at h
  · split at h
    · split at h
      · exact absurd h (by simp)
      · split at h
        · have := slugWord_lt _ _ h
          simp only [List.length_cons]
          omega
        · exact absurd h (by simp)
    · exact absurd h (by simp)
  · exact absurd h (by simp)

/-- Any fuel at least the length of the list computes the same removal. -/
theorem reSubSlugF_congr : ∀ (f1 f2 : Nat) (l : List Char), l.length ≤ f1 → l.length ≤ f2 →
    reSubSlugF f1 l = reSubSlugF f2 l := by
  intro f1
  induction f1 with
  | zero =>
    intro f2 l h1 _
    have : l = [] := List.eq_nil_of_length_eq_zero (Nat.le_zero.mp h1)
    subst this
    cases f2 <;> rfl
  | succ g ih =>
    intro f2 l h1 h2
    cases l with
    | nil => cases f2 <;> rfl
    | cons c t =>
      cases f2 with
      | zero => simp at h2
      | succ h =>
        simp only [reSubSlugF]
        cases hm : slugMatch (c :: t) with
        | some r =>
          have hr := slugMatch_lt _ _ hm
          simp only [List.length_cons] at h1 h2 hr
          exact ih h r (by omega) (by omega)
        | none =>
          simp only [List.length_cons] at h1 h2
          rw [ih h t (by omega) (by omega)]

/-- A successful `slugMatch` starts with a space and an opening parenthesis. -/
theorem slugMatch_shape : ∀ l r : List Char, slugMatch l = some r →
    ∃ rest, l = ' ' :: '(' :: rest := by
  intro l r h
  unfold slugMatch at h
  split at h
  · next c1 c2 rest =>
    split at h
    · next hcc => exact ⟨rest, by rw [hcc.1, hcc.2]⟩
    · exact absurd h (by simp)
  · exact absurd h (by simp)

/-- Scanning a list whose head is not `(` after a parenthesis-free block never
starts a match inside the block: removal distributes over the append. -/
theorem reSubSlugF_append : ∀ (p t : List Char) (fuel : Nat),
    p.length + t.length ≤ fuel → (∀ c ∈ p, c ≠ '(') →
    (∀ c, t.head? = some c → c ≠ '(') →
    reSubSlugF fuel (p ++ t) = p ++ reSubSlug t := by
  intro p
  induction p with
  | nil =>
    intro t fuel hf _ _
    simpa using reSubSlugF_congr fuel t.length t (by simpa using hf) (Nat.le_refl _)
  | cons c p' ih =>
    intro t fuel hf hp ht
    cases fuel with
    | zero => simp at hf
    | succ g =>
      have hm : slugMatch (c :: (p' ++ t)) = none := by
        cases hmm : slugMatch (c :: (p' ++ t)) with
        | none => rfl
        | some r =>
          obtain ⟨rest, hshape⟩ := slugMatch_shape _ _ hmm
          have hc2 : (p' ++ t).head? = some '(' := by
            have := congrArg List.tail hshape
            simp at this
            rw [this]
            rfl
          cases p' with
          | nil =>
            simp only [List.nil_append] at hc2
            exact absurd rfl (ht '(' hc2)
          | cons c' t' =>
            simp only [List.cons_append, List.head?_cons, Option.some.injEq] at hc2
            exact absurd hc2 (hp c' (by simp))
      rw [List.cons_append, reSubSlugF, hm,
        ih t g (by simp only [List.length_cons] at hf; omega)
          (fun x hx => hp x (List.mem_cons_of_mem c hx)) ht,
        List.cons_append]

/-- `slugDigits` consumes a digit block followed by `)` exactly. -/
theorem slugDigits_consume (b : List Char) : ∀ d : List Char, (∀ c ∈ d, c.isDigit = true) →
    slugDigits (d ++ ')' :: b) = some b := by
  intro d
  induction d with
  | nil => intro _; simp [slugDigits]
  | cons c t ih =>
    intro hd
    have hc : c.isDigit = true := hd c (by simp)
    have hcp : ¬ c = ')' := by
      intro he
      rw [he] at hc
      simp at hc
    simp only [List.cons_append, slugDigits, if_neg hcp, hc, if_pos]
    exact ih (fun x hx => hd x (List.mem_cons_of_mem c hx))

/-- `slugWord` consumes the rest of the word block, the hyphen, the digit
block and the closing parenthesis exactly. -/
theorem slugWord_consume (d b : List Char) (hd1 : d ≠ []) (hd : ∀ c ∈ d, c.isDigit = true) :
    ∀ w : List Char, (∀ c ∈ w, isWordChar c = true) →
      slugWord (w ++ '-' :: (d ++ ')' :: b)) = some b := by
  intro w
  induction w with
  | nil =>
    intro _
    cases d with
    | nil => exact absurd rfl hd1
    | cons c t =>
      have hc : c.isDigit = true := hd c (by simp)
      simp only [List.nil_append, slugWord, if_pos rfl, List.cons_append, hc, if_pos]
      exact slugDigits_consume b t (fun x hx => hd x (List.mem_cons_of_mem c hx))
  | cons c t ih =>
    intro hw
    have hc : isWordChar c = true := hw c (by simp)
    have hch : ¬ c = '-' := by
      intro he
      rw [he] at hc
      simp [isWordChar, Char.isAlphanum, Char.isAlpha, Char.isUpper, Char.isLower, Char.isDigit] at hc
    simp only [List.cons_append, slugWord, if_neg hch, hc, if_pos]
    exact ih (fun x hx => hw x (List.mem_cons_of_mem c hx))

/-- `slugMatch` recognises exactly the pattern ` (w-d)` at the head, returning
what follows. -/
theorem slugMatch_consume (w d b : List Char) (hw1 : w ≠ []) (hw : ∀ c ∈ w, isWordChar c = true)
    (hd1 : d ≠ []) (hd : ∀ c ∈ d, c.isDigit = true) :
    slugMatch (' ' :: '(' :: (w ++ '-' :: (d ++ ')' :: b))) = some b := by
  cases w with
  | nil => exact absurd rfl hw1
  | cons c t =>
    have hc : isWordChar c = true := hw c (by simp)
    simp only [slugMatch, List.cons_append, if_pos (And.intro rfl rfl), hc, if_pos]
    exact slugWord_consume d b hd1 hd t (fun x hx => hw x (List.mem_cons_of_mem c hx))

/-- Removal after a successful head match continues on the remainder. -/
theorem reSubSlug_head_match (l r : List Char) (h : slugMatch l = some r) :
    reSubSlug l = reSubSlug r := by
  cases l with
  | nil => simp [slugMatch] at h
  | cons c t =>
    unfold reSubSlug
    simp only [List.length_cons]
    rw [reSubSlugF, h]
    exact reSubSlugF_congr _ _ r
      (by have := slugMatch_lt _ _ h; simp only [List.length_cons] at this; omega)
      (Nat.le_refl _)

/-- The removal deletes a ` (w-d)` token wherever it occurs after a
parenthesis-free block, and goes on scanning the remainder. -/
theorem reSubSlug_strips (p w d b : List Char)
    (hp : ∀ c ∈ p, c ≠ '(') (hw1 : w ≠ []) (hw : ∀ c ∈ w, isWordChar c = true)
    (hd1 : d ≠ []) (hd : ∀ c ∈ d, c.isDigit = true) :
    reSubSlug (p ++ ' ' :: '(' :: (w ++ '-' :: (d ++ ')' :: b))) = p ++ reSubSlug b := by
  unfold reSubSlug
  rw [reSubSlugF_append p (' ' :: '(' :: (w ++ '-' :: (d ++ ')' :: b)))
        (p ++ ' ' :: '(' :: (w ++ '-' :: (d ++ ')' :: b))).length
        (by rw [List.length_append]) hp
        (by intro c h; injection h with h; rw [← h]; decide)]
  rw [show reSubSlug (' ' :: '(' :: (w ++ '-' :: (d ++ ')' :: b))) = reSubSlug b from
        reSubSlug_head_match _ _ (slugMatch_consume w d b hw1 hw hd1 hd)]
  rfl

/-- Characters produced by `Nat.toDigitsCore` in base 10 over a digit
accumulator are decimal digits. -/
theorem toDigitsCore_digits : ∀ (fuel n : Nat) (acc : List Char),
    (∀ c ∈ acc, c.isDigit = true) → ∀ c ∈ Nat.toDigitsCore 10 fuel n acc, c.isDigit = true := by
  intro fuel
  induction fuel with
  | zero => intro n acc hacc c hc; exact hacc c (by simpa [Nat.toDigitsCore] using hc)
  | succ f ih =>
    intro n acc hacc c hc
    have hdig : (Nat.digitChar (n % 10)).isDigit = true := by
      have hlt : n % 10 < 10 := Nat.mod_lt _ (by norm_num)
      set m := n % 10 with hm
      interval_cases m <;> decide
    rw [Nat.toDigitsCore] at hc
    split at hc
    · rcases List.mem_cons.mp hc with h | h
      · rw [h]; exact hdig
      · exact hacc c h
    · refine ih (n / 10) (Nat.digitChar (n % 10) :: acc) ?_ c hc
      intro x hx
      rcases List.mem_cons.mp hx with h | h
      · rw [h]; exact hdig
      · exact hacc x h

/-- Every character of the decimal representation of a natural number is a
digit. -/
theorem repr_digits (n : Nat) : ∀ c ∈ (Nat.repr n).data, c.isDigit = true := by
  show ∀ c ∈ Nat.toDigitsCore 10 (n + 1) n [], c.isDigit = true
  exact toDigitsCore_digits (n + 1) n [] (by intro c hc; simp at hc)

/-- The fixed summary prefix `{PR|GH} #{number}: ` contains no opening
parenthesis. -/
theorem summaryPre_no_paren (isPR : Bool) (n : Nat) :
    ∀ c ∈ ((if isPR then "PR" else "GH") ++ " #" ++ Nat.repr n ++ ": ").data, c ≠ '(' := by
  intro c hc he
  subst he
  simp only [String.data_append, List.mem_append] at hc
  rcases hc with (hc | hc) | hc
  · rcases hc with hc | hc
    · cases isPR
      · exact absurd hc (by decide)
      · exact absurd hc (by decide)
    · exact absurd hc (by decide)
  · exact absurd (repr_digits n '(' hc) (by decide)
  · exact absurd hc (by decide)

/-- C6 (amended): the summary strips a parenthesized key token ` (KEY-123)`
wherever it occurs in the title, with scanning continuing on what follows —
not only a trailing suffix.  `a` is the title part before the token (no `(` in
it), `w`/`d` the letters/digits of the token, `b` what follows. -/
theorem summary_strips_slug_anywhere (gh : GhIssue) (a w d b : List Char)
    (htitle : gh.title.data = a ++ ' ' :: '(' :: (w ++ '-' :: (d ++ ')' :: b)))
    (ha : ∀ c ∈ a, c ≠ '(')
    (hw1 : w ≠ []) (hw : ∀ c ∈ w, isWordChar c = true)
    (hd1 : d ≠ []) (hd : ∀ c ∈ d, c.isDigit = true) :
    _get_summary gh =
      ⟨((if gh.isPR then "PR" else "GH") ++ " #" ++ Nat.repr gh.number ++ ": ").data ++
        (a ++ reSubSlug b)⟩ := by
  have hdata :
      ((if gh.isPR then "PR" else "GH") ++ " #" ++ Nat.repr gh.number ++ ": " ++ gh.title).data =
        (((if gh.isPR then "PR" else "GH") ++ " #" ++ Nat.repr gh.number ++ ": ").data ++ a) ++
          ' ' :: '(' :: (w ++ '-' :: (d ++ ')' :: b)) := by
    simp only [String.data_append, htitle, List.append_assoc]
  show (⟨reSubSlug
      ((if gh.isPR then "PR" else "GH") ++ " #" ++ Nat.repr gh.number ++ ": " ++ gh.title).data⟩ :
        String) = _
  rw [hdata]
  rw [reSubSlug_strips _ w d b
        (by
          intro c hc
          rcases List.mem_append.mp hc with h | h
          · exact summaryPre_no_paren gh.isPR gh.number c h
          · exact ha c h)
        hw1 hw hd1 hd]
  rw [List.append_assoc]

/-- Concrete issue for the C6 counterexample and witness: a key-like
parenthesized token in the middle of the title, not a trailing suffix. -/
def c6Issue : GhIssue :=
  { number := 5, title := "Fix (ABC-1) bug", body := none, userLogin := "u"
    htmlUrl := "https://gh/5", state := "open", isPR := false, labels := [] }

/-- C6 counterexample: the claim predicts the non-trailing token ` (ABC-1)` is
reproduced unchanged in the summary, but the code removes every occurrence:
the computed summary is `GH #5: Fix bug`, not `GH #5: Fix (ABC-1) bug`. -/
theorem summary_midtoken_stripped :
    _get_summary c6Issue = "GH #5: Fix bug" ∧
    _get_summary c6Issue ≠ "GH #5: Fix (ABC-1) bug" := by
  constructor
  · rfl
  · decide

/-- C6 witness: the amended statement applied at the concrete mid-title
token. -/
theorem summary_strips_slug_anywhere_witness :
    c6Issue.title.data =
      "Fix".data ++ ' ' :: '(' :: ("ABC".data ++ '-' :: ("1".data ++ ')' :: " bug".data)) ∧
    _get_summary c6Issue =
      ⟨((if c6Issue.isPR then "PR" else "GH") ++ " #" ++ Nat.repr c6Issue.number ++ ": ").data ++
        ("Fix".data ++ reSubSlug " bug".data)⟩ :=
  ⟨by decide,
    summary_strips_slug_anywhere c6Issue "Fix".data "ABC".data "1".data " bug".data
      (by decide) (by decide) (by decide) (by decide) (by decide) (by decide)⟩

/-- By-id updates keep the number of issues. -/
theorem length_stUpdateById (st : JiraState) (tid : Nat) (f : JiraIssue → JiraIssue) :
    (stUpdateById st tid f).issues.length = st.issues.length := by
  simp [stUpdateById]

/-- Link updates keep the number of issues. -/
theorem length_update_link_resolved (st : JiraState) (gh : GhIssue) (tid : Nat) :
    (_update_link_resolved st gh tid).issues.length = st.issues.length :=
  length_stUpdateById st tid _

/-- Creation appends exactly one issue, carrying the fresh server id. -/
theorem create_adds_issue (cfg : Config) (convert : String → Option String) (st : JiraState)
    (gh : GhIssue) (st' : JiraState) (i : JiraIssue)
    (h : _create_jira_issue cfg convert st gh = .ok (st', i)) :
    st'.issues.length = st.issues.length + 1 ∧ i.id = st.nextId := by
  unfold _create_jira_issue at h
  cases hcomp : _update_components_field cfg st none with
  | error e =>
    rw [hcomp] at h
    exact absurd h (by simp)
  | ok compOpt =>
    rw [hcomp] at h
    simp only [Except.ok.injEq, Prod.mk.injEq] at h
    obtain ⟨h1, h2⟩ := h
    subst h1
    constructor
    · split
      · rw [length_update_link_resolved]
        rw [show (stAddRemoteLink _ _ _) = stUpdateById _ _ _ from rfl]
        rw [length_stUpdateById, length_stUpdateById]
        simp
      · rw [show (stAddRemoteLink _ _ _) = stUpdateById _ _ _ from rfl]
        rw [length_stUpdateById, length_stUpdateById]
        simp
    · rw [← h2]

/-- With the search and the manual match both finding nothing, resolution with
creation enabled performs one sleep per remaining retry and then defers to
creation, threading the retry count into the sleep count. -/
theorem find_retries_eq (cfg : Config) (convert : String → Option String) (st : JiraState)
    (gh : GhIssue) (hs : search_issues st gh.htmlUrl = [])
    (hm : manualMatchStep st gh = .ok none) :
    ∀ r : Nat, _find_jira_issue cfg convert st gh true r =
      (match _create_jira_issue cfg convert st gh with
       | .ok (st2, i) => .ok ⟨st2, some i, r⟩
       | .error e => .error e) := by
  intro r
  induction r with
  | zero =>
    simp only [_find_jira_issue, findPrelude, hs, hm, Bool.not_true, Bool.false_eq_true,
      if_false]
  | succ r ih =>
    simp only [_find_jira_issue, findPrelude, hs, hm, Bool.not_true, Bool.false_eq_true,
      if_false, ih]
    cases _create_jira_issue cfg convert st gh with
    | ok p => cases p with | mk st2 i => rfl
    | error e => rfl

/-- C3: with all lookups failing on a well-formed server state, resolution
with creation enabled terminates with exactly 5 sleep-and-retry cycles and
then creates and returns one new issue (no unbounded loop, no earlier
creation: the sleep count of the result is the full 5, and creation adds the
single issue carrying the fresh id). -/
theorem find_five_retries_then_create (cfg : Config) (convert : String → Option String)
    (st : JiraState) (gh : GhIssue) (st' : JiraState) (i : JiraIssue)
    (hs : search_issues st gh.htmlUrl = [])
    (hm : manualMatchStep st gh = .ok none)
    (hc : _create_jira_issue cfg convert st gh = .ok (st', i))
    (hwf : ∀ j ∈ st.issues, j.id < st.nextId) :
    _find_jira_issue cfg convert st gh true 5 = .ok ⟨st', some i, 5⟩ ∧
    st'.issues.length = st.issues.length + 1 ∧
    ∀ j ∈ st.issues, j.id ≠ i.id := by
  obtain ⟨hlen, hid⟩ := create_adds_issue cfg convert st gh st' i hc
  refine ⟨?_, hlen, ?_⟩
  · rw [find_retries_eq cfg convert st gh hs hm 5, hc]
  · intro j hj he
    have := hwf j hj
    rw [he, hid] at this
    exact Nat.lt_irrefl _ this

/-- C3 witness: empty tracker, plain title, no configured component — all
lookups fail and creation succeeds. -/
theorem find_five_retries_then_create_witness :
    search_issues ⟨[], 0, [], []⟩ "https://gh/8" = [] ∧
    manualMatchStep ⟨[], 0, [], []⟩
        ({ number := 8, title := "plain", body := none, userLogin := "u"
           htmlUrl := "https://gh/8", state := "open", isPR := false, labels := [] } : GhIssue) =
      .ok none ∧
    (_find_jira_issue ⟨"PROJ", "", none⟩ (fun _ => none) ⟨[], 0, [], []⟩
          ({ number := 8, title := "plain", body := none, userLogin := "u"
             htmlUrl := "https://gh/8", state := "open", isPR := false, labels := [] } : GhIssue)
          true 5).map (fun r => (r.sleeps, r.st.issues.length)) = .ok (5, 1) := by
  refine ⟨rfl, rfl, ?_⟩
  rw [(find_five_retries_then_create ⟨"PROJ", "", none⟩ (fun _ => none) ⟨[], 0, [], []⟩
    ({ number := 8, title := "plain", body := none, userLogin := "u"
       htmlUrl := "https://gh/8", state := "open", isPR := false, labels := [] } : GhIssue)
    _ _ rfl rfl rfl (by intro j hj; simp at hj)).1]
  rfl

/-- Comment additions keep the number of issues. -/
theorem length_stAddComment (st : JiraState) (tid : Nat) (body : String) :
    (stAddComment st tid body).issues.length = st.issues.length :=
  length_stUpdateById st tid _

/-- C5 counterexample: an issue-reopened event whose source issue has no
corresponding target issue (empty tracker, plain title) makes the handler
create one — `handle_issue_reopened` passes `should_create=True` (line 123),
not the claimed `create_if_missing=false`. -/
theorem reopened_creates_on_missing :
    (handle_issue_reopened ⟨"PROJ", "", none⟩ (fun _ => none) ⟨[], 0, [], []⟩
        { issue := { number := 6, title := "plain", body := none, userLogin := "u"
                     htmlUrl := "https://gh/6", state := "open", isPR := false, labels := [] }
          sender := none, label := none, comment := none, changesBodyFrom := none }).map
      (fun s => s.issues.length) = .ok 1 ∧
    (⟨[], 0, [], []⟩ : JiraState).issues.length = 0 := by
  constructor
  · rfl
  · rfl

/-- C5 (amended): `handle_issue_reopened` resolves with `should_create=True`
(unlike Closed): when neither the search nor the manual match finds a target
issue and creation succeeds, the handler returns a state with exactly one new
issue. -/
theorem handle_issue_reopened_creates (cfg : Config) (convert : String → Option String)
    (st : JiraState) (ev : SyncEvent) (st' : JiraState) (i : JiraIssue)
    (hs : search_issues st ev.issue.htmlUrl = [])
    (hm : manualMatchStep st ev.issue = .ok none)
    (hc : _create_jira_issue cfg convert st ev.issue = .ok (st', i)) :
    (handle_issue_reopened cfg convert st ev).map (fun s => s.issues.length) =
      .ok (st.issues.length + 1) := by
  have hfind := find_retries_eq cfg convert st ev.issue hs hm 5
  rw [hc] at hfind
  simp only [handle_issue_reopened, _leave_jira_issue_comment, hfind, Except.map]
  rw [length_update_link_resolved, length_stUpdateById, length_stAddComment,
    (create_adds_issue cfg convert st ev.issue st' i hc).1]

/-- C5 witness: the amended statement at the concrete empty-tracker input. -/
theorem handle_issue_reopened_creates_witness :
    search_issues ⟨[], 0, [], []⟩ "https://gh/6" = [] ∧
    (handle_issue_reopened ⟨"PROJ", "", none⟩ (fun _ => none) ⟨[], 0, [], []⟩
        { issue := { number := 6, title := "plain2", body := none, userLogin := "u"
                     htmlUrl := "https://gh/6", state := "open", isPR := false, labels := [] }
          sender := none, label := none, comment := none, changesBodyFrom := none }).map
      (fun s => s.issues.length) = .ok 1 :=
  ⟨rfl, handle_issue_reopened_creates ⟨"PROJ", "", none⟩ (fun _ => none) ⟨[], 0, [], []⟩
    { issue := { number := 6, title := "plain2", body := none, userLogin := "u"
                 htmlUrl := "https://gh/6", state := "open", isPR := false, labels := [] }
      sender := none, label := none, comment := none, changesBodyFrom := none }
    _ _ rfl rfl rfl⟩

/-- Inversion of a successful manual match: the returned state only registers
the remote link on the returned issue, which was already on the server. -/
theorem manualMatch_some_inv (st : JiraState) (gh : GhIssue) (st2 : JiraState)
    (issue : JiraIssue) (h : manualMatchStep st gh = .ok (some (st2, issue))) :
    st2 = stAddRemoteLink st issue.id (mkRemoteLink gh) ∧ issue ∈ st.issues := by
  unfold manualMatchStep at h
  cases hkey : extractTrailingKey gh.title with
  | none =>
    simp only [hkey] at h
    exact Option.noConfusion (Except.ok.inj h)
  | some key =>
    simp only [hkey] at h
    cases hfb : findByKey st key with
    | none =>
      simp only [hfb] at h
      exact Except.noConfusion h
    | some found =>
      simp only [hfb] at h
      split at h
      · simp only [Except.ok.injEq, Option.some.injEq, Prod.mk.injEq] at h
        obtain ⟨h1, h2⟩ := h
        subst h2
        exact ⟨h1.symm, List.mem_of_find?_eq_some hfb⟩
      · simp only [Except.ok.injEq] at h
        exact Option.noConfusion h

/-- Descending insertion adds one element. -/
theorem length_insertDesc (x : JiraIssue) : ∀ l, (insertDesc x l).length = l.length + 1 := by
  intro l
  induction l with
  | nil => rfl
  | cons y t ih =>
    unfold insertDesc
    split
    · rfl
    · simp [ih]

/-- Sorting keeps the number of issues. -/
theorem length_sortDesc : ∀ l, (sortDesc l).length = l.length := by
  intro l
  induction l with
  | nil => rfl
  | cons x t ih => simp [sortDesc, length_insertDesc, ih]

/-- An issue with a matching remote link makes the search nonempty. -/
theorem search_ne_nil_of_mem (st : JiraState) (url : String) (j : JiraIssue)
    (hj : j ∈ st.issues) (hl : j.remoteLinks.any (fun l => l.globalId == url) = true) :
    search_issues st url ≠ [] := by
  intro hnil
  unfold search_issues at hnil
  have hmem : j ∈ st.issues.filter (fun j => j.remoteLinks.any (fun l => l.globalId == url)) :=
    List.mem_filter.mpr ⟨hj, hl⟩
  have hlen := length_sortDesc
    (st.issues.filter (fun j => j.remoteLinks.any (fun l => l.globalId == url)))
  rw [hnil] at hlen
  have hpos := List.length_pos_of_mem hmem
  simp only [List.length_nil] at hlen
  omega

/-- Forget the remote links of an issue (to state what a mutation does *not*
touch). -/
def stripLinks (j : JiraIssue) : JiraIssue := { j with remoteLinks := [] }

/-- Registering a remote link changes no issue outside its link list. -/
theorem map_stripLinks_stAddRemoteLink (st : JiraState) (tid : Nat) (ln : RemoteLink) :
    (stAddRemoteLink st tid ln).issues.map stripLinks = st.issues.map stripLinks := by
  show (st.issues.map _).map stripLinks = _
  rw [List.map_map]
  apply List.map_congr_left
  intro j _
  show stripLinks (if j.id = tid then _ else j) = stripLinks j
  split
  · rfl
  · rfl

/-- Inversion of a successful prelude: either the search found the issue
(state untouched) or the manual match did. -/
theorem findPrelude_some_inv (st : JiraState) (gh : GhIssue) (st2 : JiraState)
    (issue : JiraIssue) (h : findPrelude st gh = .ok (some (st2, issue))) :
    (∃ rest, search_issues st gh.htmlUrl = issue :: rest ∧ st2 = st) ∨
    (search_issues st gh.htmlUrl = [] ∧ manualMatchStep st gh = .ok (some (st2, issue))) := by
  unfold findPrelude at h
  cases hsearch : search_issues st gh.htmlUrl with
  | cons j t =>
    rw [hsearch] at h
    simp only [Except.ok.injEq, Option.some.injEq, Prod.mk.injEq] at h
    obtain ⟨h1, h2⟩ := h
    subst h1
    subst h2
    exact Or.inl ⟨t, rfl, rfl⟩
  | nil =>
    rw [hsearch] at h
    exact Or.inr ⟨rfl, h⟩

/-- Resolution with creation disabled that yields an issue went through the
prelude with no sleeps and no creation. -/
theorem find_false_inv (cfg : Config) (convert : String → Option String) (st : JiraState)
    (gh : GhIssue) (st' : JiraState) (i : JiraIssue) (n : Nat) (retries : Nat)
    (h : _find_jira_issue cfg convert st gh false retries = .ok ⟨st', some i, n⟩) :
    findPrelude st gh = .ok (some (st', i)) := by
  cases hp : findPrelude st gh with
  | error e =>
    have hkill : _find_jira_issue cfg convert st gh false retries = .error e := by
      cases retries <;> simp only [_find_jira_issue, hp]
    rw [hkill] at h
    exact Except.noConfusion h
  | ok mres =>
    cases mres with
    | none =>
      have hkill : _find_jira_issue cfg convert st gh false retries = .ok ⟨st, none, 0⟩ := by
        cases retries <;> simp [_find_jira_issue, hp]
      rw [hkill] at h
      simp only [Except.ok.injEq, FindRes.mk.injEq] at h
      exact Option.noConfusion h.2.1
    | some p =>
      obtain ⟨st2, issue⟩ := p
      have hstep : _find_jira_issue cfg convert st gh false retries = .ok ⟨st2, some issue, 0⟩ := by
        cases retries <;> simp only [_find_jira_issue, hp]
      rw [hstep] at h
      simp only [Except.ok.injEq, FindRes.mk.injEq, Option.some.injEq] at h
      rw [← h.1, ← h.2.1]

/-- C1 (amended): when resolution with creation disabled finds the target
issue, the Opened handler creates nothing and, beyond the remote link that the
manual-match fallback may register during resolution itself, mutates nothing:
every issue is unchanged outside its link list, the server id counter is
untouched, and a second identical run is a strict no-op — so no second target
issue is ever created. -/
theorem opened_found_no_create (cfg : Config) (convert : String → Option String)
    (st : JiraState) (ev : SyncEvent) (st' : JiraState) (i : JiraIssue) (n : Nat)
    (h : _find_jira_issue cfg convert st ev.issue false 5 = .ok ⟨st', some i, n⟩) :
    handle_issue_opened cfg convert st ev = .ok st' ∧
    st'.issues.map stripLinks = st.issues.map stripLinks ∧
    st'.nextId = st.nextId ∧
    handle_issue_opened cfg convert st' ev = .ok st' := by
  have h1 : handle_issue_opened cfg convert st ev = .ok st' := by
    simp only [handle_issue_opened, h]
  have hp := find_false_inv cfg convert st ev.issue st' i n 5 h
  rcases findPrelude_some_inv st ev.issue st' i hp with ⟨rest, hs, hst⟩ | ⟨hs, hm⟩
  · subst hst
    exact ⟨h1, rfl, rfl, h1⟩
  · obtain ⟨hadd, hmem⟩ := manualMatch_some_inv st ev.issue st' i hm
    subst hadd
    refine ⟨h1, map_stripLinks_stAddRemoteLink st i.id (mkRemoteLink ev.issue), rfl, ?_⟩
    have hmemb :
        ({ i with remoteLinks := i.remoteLinks ++ [mkRemoteLink ev.issue] } : JiraIssue) ∈
          (stAddRemoteLink st i.id (mkRemoteLink ev.issue)).issues := by
      show _ ∈ st.issues.map _
      exact List.mem_map.mpr ⟨i, hmem, by rw [if_pos rfl]⟩
    have hlink :
        (({ i with remoteLinks := i.remoteLinks ++ [mkRemoteLink ev.issue] } : JiraIssue)
          ).remoteLinks.any (fun l => l.globalId == ev.issue.htmlUrl) = true := by
      simp [mkRemoteLink]
    have hne := search_ne_nil_of_mem (stAddRemoteLink st i.id (mkRemoteLink ev.issue))
      ev.issue.htmlUrl _ hmemb hlink
    cases hs2 : search_issues (stAddRemoteLink st i.id (mkRemoteLink ev.issue))
        ev.issue.htmlUrl with
    | nil => exact absurd hs2 hne
    | cons j0 rest0 =>
      simp only [handle_issue_opened,
        find_of_search_cons cfg convert _ ev.issue false 5 j0 rest0 hs2]

/-- Concrete server issue for C1: manually-synced (description cites the
GitHub url) but carrying no remote link yet. -/
def c1Issue : JiraIssue :=
  { key := "ABC-12", id := 3, projectKey := "ABC", summary := "s"
    description := "see https://gh/5 here", labels := [], components := []
    issuetype := .byName "Task", statusCF := "", remoteLinks := [], comments := [], updated := 1 }

/-- Concrete issue-opened event for C1: the GitHub title ends in the target
key token. -/
def c1Event : SyncEvent :=
  { issue := { number := 5, title := "Fix crash (ABC-12)", body := none, userLogin := "u"
               htmlUrl := "https://gh/5", state := "open", isPR := false, labels := [] }
    sender := none, label := none, comment := none, changesBodyFrom := none }

/-- Initial server state for C1. -/
def c1State : JiraState := ⟨[c1Issue], 10, [], []⟩

/-- Server state after C1 resolution registered the remote link. -/
def c1StateLinked : JiraState := stAddRemoteLink c1State 3 (mkRemoteLink c1Event.issue)

/-- C1 counterexample: resolution with creation disabled finds the issue (via
the manual-match fallback), yet the Opened handler's run mutates the target
tracker — it registers a remote link, so the resulting state differs from the
input state, contradicting "no mutation of the target tracker". -/
theorem opened_resolution_mutates :
    _find_jira_issue ⟨"PROJ", "", none⟩ (fun _ => none) c1State c1Event.issue false 5 =
      .ok ⟨c1StateLinked, some c1Issue, 0⟩ ∧
    handle_issue_opened ⟨"PROJ", "", none⟩ (fun _ => none) c1State c1Event =
      .ok c1StateLinked ∧
    c1StateLinked ≠ c1State := by
  refine ⟨rfl, rfl, ?_⟩
  decide

/-- C1 witness: the amended statement at the concrete manual-match input. -/
theorem opened_found_no_create_witness :
    _find_jira_issue ⟨"PROJ", "", none⟩ (fun _ => none) c1State c1Event.issue false 5 =
      .ok ⟨c1StateLinked, some c1Issue, 0⟩ ∧
    (handle_issue_opened ⟨"PROJ", "", none⟩ (fun _ => none) c1State c1Event =
        .ok c1StateLinked ∧
      c1StateLinked.issues.map stripLinks = c1State.issues.map stripLinks ∧
      c1StateLinked.nextId = c1State.nextId ∧
      handle_issue_opened ⟨"PROJ", "", none⟩ (fun _ => none) c1StateLinked c1Event =
        .ok c1StateLinked) :=
  ⟨rfl, opened_found_no_create ⟨"PROJ", "", none⟩ (fun _ => none) c1State c1Event
    c1StateLinked c1Issue 0 rfl⟩
